import Mathlib

/-!
Shallow embedding of `src/include/Profiler.hpp` (namespace `profiler`):
the `ProfileResult` event record, the `Profiler` recorder singleton with
`BeginSession` / `WriteProfile` / `EndSession`, and the `ProfilerScope`
RAII measurement guard.

Modelling conventions:
- The mutex only serializes calls; a single call's critical section is
  modelled as one atomic state transition.
- A C++ `throw` is modelled as an `Except.error` result; the object state
  returned alongside it is the state at the moment of the throw (statements
  after a `throw` are unreachable, e.g. the `EndSessionNoLock_()` call after
  the throw in `BeginSession`).
- The output `std::ofstream` is modelled by `sinkOpen`, `sinkDest` (the path
  it was opened on) and `sinkContents` (the bytes written to it since it was
  opened). `openCalls` is a ghost trace recording every `m_OutStream.open`
  invocation; `submissions` is a ghost trace recording every event a
  `ProfilerScope` guard hands to the recorder. Ghost fields are never read
  by the operations themselves.
- `double` values (the `Start` field, a `std::chrono::duration<double,
  std::micro>` count) are modelled as exact rationals; integral tick counts
  as integers.
-/

namespace ProfilerModel

/-- Event record: C++ `ProfileResult`. `Start` is the count of a
`duration<double, micro>` (microseconds, floating), `Elapsed` the count of a
`std::chrono::microseconds` (integral), `ThreadId` the numeric value that
`operator<<` on `std::thread::id` prints. -/
structure ProfileResult where
  Name : String
  Start : ℚ
  Elapsed : ℤ
  ThreadId : ℕ
deriving DecidableEq

/-- C++ `ProfilerSession`: just the session name. -/
structure ProfilerSession where
  Name : String
deriving DecidableEq

/-- Error values thrown as `ProfileException`; the constructors carry what
the C++ message interpolates. -/
inductive ProfileError where
  | sessionAlreadyOpen (existing : String)
  | sinkOpenFailed (path : String)
  | noActiveSession
deriving DecidableEq

/-- The message string the C++ code passes to `ProfileException`. -/
def ProfileError.message : ProfileError → String
  | .sessionAlreadyOpen existing => "Profiling session already opened: " ++ existing
  | .sinkOpenFailed path => "Could not open file: " ++ path
  | .noActiveSession => "No opened profiling session!"

/-- State of the `Profiler` singleton: `m_CurrentSession` and the
`m_OutStream`, plus the two ghost traces described in the module header. -/
structure ProfilerState where
  currentSession : Option ProfilerSession
  sinkOpen : Bool
  sinkDest : Option String
  sinkContents : String
  openCalls : List String
  submissions : List ProfileResult
deriving DecidableEq

/-- The freshly constructed singleton: `m_CurrentSession = nullptr`, stream
not open, nothing written. -/
def initialState : ProfilerState :=
  { currentSession := none
    sinkOpen := false
    sinkDest := none
    sinkContents := ""
    openCalls := []
    submissions := [] }

/-- Bytes of `Profiler::WriteHeader`. -/
def headerString : String := "\x7b\"otherData\": \x7b\x7d,\"traceEvents\":[\x7b\x7d"

/-- Bytes of `Profiler::WriteFooter`. -/
def footerString : String := "]\x7d"

/-- `Profiler::WriteHeader`: append the header to the open sink. -/
def writeHeader (st : ProfilerState) : ProfilerState :=
  { st with sinkContents := st.sinkContents ++ headerString }

/-- `Profiler::WriteFooter`: append the footer to the open sink. -/
def writeFooter (st : ProfilerState) : ProfilerState :=
  { st with sinkContents := st.sinkContents ++ footerString }

/-- Models C++ ostream insertion of a `double` under `std::fixed` with
`std::setprecision(3)`: the value rendered with exactly three digits after
the decimal point, rounded to nearest. `n` is `round (q * 1000)` computed
on the numerator/denominator representation with integer operations:
`⌊(2000·num + den) / (2·den)⌋`. -/
def fixed3 (q : ℚ) : String :=
  let n : ℤ := Int.fdiv (2 * (q.num * 1000) + q.den) (2 * q.den)
  let sign : String := if n < 0 then "-" else ""
  let m : ℕ := n.natAbs
  let frac : ℕ := m % 1000
  let fracStr : String :=
    if frac < 10 then "00" ++ toString frac
    else if frac < 100 then "0" ++ toString frac
    else toString frac
  sign ++ toString (m / 1000) ++ "." ++ fracStr

/-- The record `Profiler::WriteProfile` builds in its local `stringstream`,
insertion by insertion. `result.Elapsed.count()` is integral, so the
`fixed`/`setprecision(3)` stream flags do not apply to it and it prints as a
plain integer; `result.Start.count()` is a `double` and prints via
`fixed3`. -/
def serializeProfile (result : ProfileResult) : String :=
  ",\x7b" ++
  "\"cat\":\"function\"," ++
  "\"dur\":" ++ toString result.Elapsed ++ "," ++
  "\"name\":\"" ++ result.Name ++ "\"," ++
  "\"ph\":\"X\"," ++
  "\"pid\":0," ++
  "\"tid\":" ++ toString result.ThreadId ++ "," ++
  "\"ts\":" ++ fixed3 result.Start ++
  "\x7d"

/-- `Profiler::BeginSession(name, filePath)`. `canOpen` is the environment:
whether a path can be opened for writing. Control flow follows the source:
if a session is open, throw (the `EndSessionNoLock_()` after the throw is
unreachable, so the state is returned unchanged); otherwise attempt
`m_OutStream.open(filePath)`, throw if it did not open, else create the
session and write the header. -/
def beginSession (canOpen : String → Bool) (name filePath : String)
    (st : ProfilerState) : Except ProfileError Unit × ProfilerState :=
  match st.currentSession with
  | some s => (Except.error (ProfileError.sessionAlreadyOpen s.Name), st)
  | none =>
    let st1 : ProfilerState := { st with openCalls := st.openCalls ++ [filePath] }
    if canOpen filePath then
      let st2 : ProfilerState :=
        { st1 with sinkOpen := true, sinkDest := some filePath, sinkContents := "" }
      let st3 : ProfilerState := { st2 with currentSession := some { Name := name } }
      (Except.ok (), writeHeader st3)
    else
      (Except.error (ProfileError.sinkOpenFailed filePath), st1)

/-- `Profiler::WriteProfile(result)`: the record string is built first (in a
local stream, no shared state touched); then, under the lock, throw if no
session is open, else append the record to the sink and flush. -/
def writeProfile (result : ProfileResult) (st : ProfilerState) :
    Except ProfileError Unit × ProfilerState :=
  let json : String := serializeProfile result
  match st.currentSession with
  | none => (Except.error ProfileError.noActiveSession, st)
  | some _ => (Except.ok (), { st with sinkContents := st.sinkContents ++ json })

/-- `Profiler::EndSessionNoLock_`: if a session is open, write the footer,
close the stream and delete the session; otherwise do nothing. -/
def endSessionNoLock (st : ProfilerState) : ProfilerState :=
  match st.currentSession with
  | none => st
  | some _ =>
    { writeFooter st with sinkOpen := false, currentSession := none }

/-- `Profiler::EndSession`: take the lock and run `EndSessionNoLock_`. -/
def endSession (st : ProfilerState) : ProfilerState :=
  endSessionNoLock st

/-- One recorder call, for reasoning about arbitrary call sequences. -/
inductive Op where
  | beginOp (name filePath : String)
  | writeOp (result : ProfileResult)
  | endOp
deriving DecidableEq

/-- Apply one call to the recorder state (a throw leaves the state the
operation produced up to that point, as in the source). -/
def stepOp (canOpen : String → Bool) (st : ProfilerState) : Op → ProfilerState
  | Op.beginOp name filePath => (beginSession canOpen name filePath st).2
  | Op.writeOp result => (writeProfile result st).2
  | Op.endOp => endSession st

/-- Run a sequence of recorder calls. -/
def runOps (canOpen : String → Bool) (st : ProfilerState) (ops : List Op) :
    ProfilerState :=
  ops.foldl (stepOp canOpen) st

/-- Number of sessions the recorder currently owns (`m_CurrentSession` is a
single nullable pointer). -/
def sessionCount (st : ProfilerState) : ℕ :=
  match st.currentSession with
  | none => 0
  | some _ => 1

/-- `std::chrono::time_point_cast<std::chrono::microseconds>` applied to a
steady-clock time point holding an integral nanosecond count:
`duration_cast` truncates toward zero. -/
def timePointCastUs (ns : ℤ) : ℤ := Int.tdiv ns 1000

/-- The `elapsed` value `ProfilerScope::Stop` computes from the construction
reading (`m_Start`) and destruction reading (`endTime`) of the steady
clock, both nanosecond counts. -/
def stopElapsed (startNs endNs : ℤ) : ℤ :=
  timePointCastUs endNs - timePointCastUs startNs

/-- The event `ProfilerScope::Stop` submits: `highResStart` is the
nanosecond start reading re-expressed as floating microseconds
(`startNs / 1000`). -/
def stopEvent (name : String) (startNs endNs : ℤ) (tid : ℕ) : ProfileResult :=
  { Name := name
    Start := mkRat startNs 1000
    Elapsed := stopElapsed startNs endNs
    ThreadId := tid }

/-- `ProfilerScope::Stop`: build the event, record it in the ghost
submission trace, and hand it to `Profiler::GetInstance().WriteProfile`. -/
def scopeStop (name : String) (startNs endNs : ℤ) (tid : ℕ)
    (st : ProfilerState) : Except ProfileError Unit × ProfilerState :=
  writeProfile (stopEvent name startNs endNs tid)
    { st with submissions := st.submissions ++ [stopEvent name startNs endNs tid] }

/-- How the guarded region exits: a normal return value, or an exception
propagating out of it. -/
inductive RegionOutcome (α : Type) where
  | normal (a : α)
  | thrown (what : String)

/-- A `ProfilerScope` guard wrapped around a region: the constructor takes
the start reading, the region runs to its outcome, and the destructor runs
`Stop` on every exit path — C++ destroys a stack guard exactly once whether
the scope is left by normal flow, early return, or exception unwinding. -/
def runGuarded {α : Type} (name : String) (startNs endNs : ℤ) (tid : ℕ)
    (outcome : RegionOutcome α) (st : ProfilerState) : ProfilerState :=
  match outcome with
  | RegionOutcome.normal _ => (scopeStop name startNs endNs tid st).2
  | RegionOutcome.thrown _ => (scopeStop name startNs endNs tid st).2

/-- Concatenate the serializations of a list of events, in order. -/
def concatSerialized : List ProfileResult → String
  | [] => ""
  | result :: rest => serializeProfile result ++ concatSerialized rest

/-- `BeginSession`, then `WriteProfile` for each event in order, then
`EndSession`, starting from the freshly constructed recorder. -/
def beginWriteEnd (canOpen : String → Bool) (name filePath : String)
    (events : List ProfileResult) : ProfilerState :=
  endSession
    (events.foldl (fun st result => (writeProfile result st).2)
      (beginSession canOpen name filePath initialState).2)

/-! Concrete fixtures used by witnesses. -/

/-- A state with session `"A"` open on `"a.json"` and the header written. -/
def busyState : ProfilerState :=
  (beginSession (fun _ => true) "A" "a.json" initialState).2

/-- A sample event. -/
def sampleEvent : ProfileResult :=
  { Name := "work", Start := mkRat 3 2, Elapsed := 5, ThreadId := 7 }

/-- The record format exactly as claim C5 words it: identical to the
source's record except that `dur` is rendered fixed-point with three
decimals. -/
def claimC5Record (result : ProfileResult) : String :=
  ",\x7b" ++
  "\"cat\":\"function\"," ++
  "\"dur\":" ++ fixed3 (result.Elapsed : ℚ) ++ "," ++
  "\"name\":\"" ++ result.Name ++ "\"," ++
  "\"ph\":\"X\"," ++
  "\"pid\":0," ++
  "\"tid\":" ++ toString result.ThreadId ++ "," ++
  "\"ts\":" ++ fixed3 result.Start ++
  "\x7d"

/-- One `"key":value` JSON object member. -/
def jsonMember (key value : String) : String :=
  "\"" ++ key ++ "\":" ++ value

/-- Join strings with comma separators. -/
def joinComma : List String → String
  | [] => ""
  | [single] => single
  | first :: rest => first ++ "," ++ joinComma rest

/-- The record as the amended claim describes it: a comma-prefixed JSON
object whose members, in order, are `cat` (constant `"function"`), `dur`
(the integral microsecond count rendered as a plain integer), `name` (the
event name embedded directly without escaping), `ph` (constant `"X"`),
`pid` (constant `0`), `tid` (the thread identifier in its native printable
form), and `ts` (the start timestamp rendered fixed-point with three
decimals). -/
def amendedC5Record (result : ProfileResult) : String :=
  ",\x7b" ++
  joinComma
    [jsonMember "cat" "\"function\"",
     jsonMember "dur" (toString result.Elapsed),
     jsonMember "name" ("\"" ++ result.Name ++ "\""),
     jsonMember "ph" "\"X\"",
     jsonMember "pid" "0",
     jsonMember "tid" (toString result.ThreadId),
     jsonMember "ts" (fixed3 result.Start)] ++
  "\x7d"

/-! Theorems. -/

/-- C1: in every state with a session already open, `BeginSession` (any
name, any destination, any environment) fails with `SessionAlreadyOpenError`
naming the existing session, and returns the recorder state unchanged — the
session stays, the sink stays open on the same destination and contents, no
transition occurs. -/
theorem beginSession_whileOpen_fails (canOpen : String → Bool)
    (name filePath : String) (st : ProfilerState) (s : ProfilerSession)
    (h : st.currentSession = some s) :
    beginSession canOpen name filePath st =
      (Except.error (ProfileError.sessionAlreadyOpen s.Name), st) ∧
    (ProfileError.sessionAlreadyOpen s.Name).message =
      "Profiling session already opened: " ++ s.Name := by
  constructor
  · unfold beginSession
    rw [h]
  · rfl

/-- Witness for C1 at a concrete busy state. -/
theorem beginSession_whileOpen_fails_witness :
    beginSession (fun _ => true) "B" "b.json" busyState =
      (Except.error (ProfileError.sessionAlreadyOpen "A"), busyState) ∧
    (ProfileError.sessionAlreadyOpen "A").message =
      "Profiling session already opened: " ++ "A" :=
  beginSession_whileOpen_fails (fun _ => true) "B" "b.json" busyState
    { Name := "A" } (by decide)

/-- Helper: the recorder structurally owns at most one session, because
`m_CurrentSession` is a single nullable pointer. -/
theorem sessionCount_le_one (st : ProfilerState) : sessionCount st ≤ 1 := by
  unfold sessionCount
  cases st.currentSession <;> simp

/-- C2: starting from any state with zero or one open sessions, any
sequence of recorder calls ends with zero or one open sessions; no call
sequence produces two simultaneously open sessions (the invariant is
enforced representationally, exactly as the single `m_CurrentSession`
pointer enforces it in the source). -/
theorem session_exclusivity (canOpen : String → Bool) (st : ProfilerState)
    (ops : List Op) (h : sessionCount st ≤ 1) :
    sessionCount (runOps canOpen st ops) ≤ 1 :=
  sessionCount_le_one (runOps canOpen st ops)

/-- Witness for C2 on a concrete call sequence. -/
theorem session_exclusivity_witness :
    sessionCount (runOps (fun _ => true) initialState
      [Op.beginOp "A" "a.json", Op.beginOp "B" "b.json",
       Op.writeOp sampleEvent, Op.endOp, Op.endOp]) ≤ 1 :=
  session_exclusivity (fun _ => true) initialState
    [Op.beginOp "A" "a.json", Op.beginOp "B" "b.json",
     Op.writeOp sampleEvent, Op.endOp, Op.endOp] (by decide)

/-- C3: `WriteProfile` fails with `NoActiveSessionError` exactly when no
session is open; with a session open it succeeds and appends exactly one
serialized record to the sink. -/
theorem writeProfile_gating (result : ProfileResult) (st : ProfilerState) :
    ((writeProfile result st).1 = Except.error ProfileError.noActiveSession ↔
      st.currentSession = none) ∧
    (∀ s, st.currentSession = some s →
      writeProfile result st =
        (Except.ok (),
         { st with sinkContents := st.sinkContents ++ serializeProfile result })) := by
  unfold writeProfile
  cases h : st.currentSession <;> simp [h]

/-- Witness for C3: with a session open, the write succeeds and appends one
record. -/
theorem writeProfile_gating_witness :
    writeProfile sampleEvent busyState =
      (Except.ok (),
       { busyState with
          sinkContents := busyState.sinkContents ++ serializeProfile sampleEvent }) :=
  (writeProfile_gating sampleEvent busyState).2 { Name := "A" } (by decide)

/-- C6: `EndSession` with no open session is a no-op and never fails; with
a session open it appends the footer, closes the sink and releases the
session, returning to `Idle`. -/
theorem endSession_idempotent (st : ProfilerState) :
    (st.currentSession = none → endSession st = st) ∧
    (∀ s, st.currentSession = some s →
      endSession st =
        { st with
            sinkContents := st.sinkContents ++ footerString
            sinkOpen := false
            currentSession := none }) := by
  unfold endSession endSessionNoLock writeFooter
  cases h : st.currentSession <;> simp [h]

/-- Witness for C6 in both states: idle no-op, open close. -/
theorem endSession_idempotent_witness :
    endSession initialState = initialState ∧
    endSession busyState =
      { busyState with
          sinkContents := busyState.sinkContents ++ footerString
          sinkOpen := false
          currentSession := none } :=
  ⟨(endSession_idempotent initialState).1 (by decide),
   (endSession_idempotent busyState).2 { Name := "A" } (by decide)⟩

/-- C7: with no session open and an unopenable destination, `BeginSession`
fails with `SinkOpenError` and creates no session — the recorder stays
`Idle` (only the ghost trace of open attempts records the failed try). -/
theorem beginSession_sinkFail (canOpen : String → Bool)
    (name filePath : String) (st : ProfilerState)
    (h1 : st.currentSession = none) (h2 : canOpen filePath = false) :
    beginSession canOpen name filePath st =
      (Except.error (ProfileError.sinkOpenFailed filePath),
       { st with openCalls := st.openCalls ++ [filePath] }) ∧
    (beginSession canOpen name filePath st).2.currentSession = none := by
  unfold beginSession
  rw [h1]
  simp [h2, h1]

/-- Witness for C7 at the initial state with an unopenable path. -/
theorem beginSession_sinkFail_witness :
    beginSession (fun _ => false) "S" "bad.json" initialState =
      (Except.error (ProfileError.sinkOpenFailed "bad.json"),
       { initialState with openCalls := initialState.openCalls ++ ["bad.json"] }) ∧
    (beginSession (fun _ => false) "S" "bad.json" initialState).2.currentSession =
      none :=
  beginSession_sinkFail (fun _ => false) "S" "bad.json" initialState rfl rfl

/-- C10: when a session is already open, `BeginSession` raises the error
before any attempt to open the requested destination: the ghost trace of
`open` calls is unchanged (the destination is never opened, created or
truncated), and the sink still refers to the existing session's
destination with its contents intact. -/
theorem beginSession_whileOpen_noSinkTouch (canOpen : String → Bool)
    (name filePath : String) (st : ProfilerState) (s : ProfilerSession)
    (h : st.currentSession = some s) :
    (beginSession canOpen name filePath st).1 =
      Except.error (ProfileError.sessionAlreadyOpen s.Name) ∧
    (beginSession canOpen name filePath st).2.openCalls = st.openCalls ∧
    (beginSession canOpen name filePath st).2.sinkDest = st.sinkDest ∧
    (beginSession canOpen name filePath st).2.sinkContents = st.sinkContents := by
  unfold beginSession
  rw [h]
  simp

/-- Witness for C10: even with an openable second destination, the failing
call records no open attempt and the sink still points at `"a.json"`. -/
theorem beginSession_whileOpen_noSinkTouch_witness :
    (beginSession (fun _ => true) "B" "b.json" busyState).1 =
      Except.error (ProfileError.sessionAlreadyOpen "A") ∧
    (beginSession (fun _ => true) "B" "b.json" busyState).2.openCalls =
      busyState.openCalls ∧
    (beginSession (fun _ => true) "B" "b.json" busyState).2.sinkDest =
      busyState.sinkDest ∧
    (beginSession (fun _ => true) "B" "b.json" busyState).2.sinkContents =
      busyState.sinkContents :=
  beginSession_whileOpen_noSinkTouch (fun _ => true) "B" "b.json" busyState
    { Name := "A" } (by decide)

/-- Helper: folding `WriteProfile` over a list of events with a session
open appends exactly the serializations, in order. -/
theorem foldl_writeProfile (events : List ProfileResult) (st : ProfilerState)
    (s : ProfilerSession) (h : st.currentSession = some s) :
    events.foldl (fun acc result => (writeProfile result acc).2) st =
      { st with sinkContents := st.sinkContents ++ concatSerialized events } := by
  induction events generalizing st with
  | nil => simp [concatSerialized, String.append_empty]
  | cons e es ih =>
    simp only [List.foldl_cons]
    have hw : (writeProfile e st).2 =
        { st with sinkContents := st.sinkContents ++ serializeProfile e } := by
      unfold writeProfile
      rw [h]
    rw [hw, ih { st with sinkContents := st.sinkContents ++ serializeProfile e } h]
    simp [concatSerialized, String.append_assoc]

/-- C4: for `BeginSession`, then `WriteProfile` for each of N events in
order, then `EndSession` (destination openable), the bytes in the sink are
exactly the header, the N comma-prefixed records in call order, and the
footer. -/
theorem framing_correctness (canOpen : String → Bool)
    (name filePath : String) (events : List ProfileResult)
    (h : canOpen filePath = true) :
    (beginWriteEnd canOpen name filePath events).sinkContents =
      headerString ++ concatSerialized events ++ footerString := by
  unfold beginWriteEnd
  have hb : (beginSession canOpen name filePath initialState).2 =
      { currentSession := some { Name := name }
        sinkOpen := true
        sinkDest := some filePath
        sinkContents := headerString
        openCalls := [filePath]
        submissions := [] } := by
    unfold beginSession initialState writeHeader
    simp [h]
  rw [hb, foldl_writeProfile events _ { Name := name } rfl]
  unfold endSession endSessionNoLock writeFooter
  simp [String.append_assoc]

/-- Witness for C4 with one event. -/
theorem framing_correctness_witness :
    (beginWriteEnd (fun _ => true) "S" "out.json" [sampleEvent]).sinkContents =
      headerString ++ concatSerialized [sampleEvent] ++ footerString :=
  framing_correctness (fun _ => true) "S" "out.json" [sampleEvent] rfl

/-- Counterexample to C5 as stated: the source renders `dur` as a plain
integer (`Elapsed.count()` is integral, so the `fixed`/`setprecision(3)`
flags do not apply), not fixed-point with three decimals — at a concrete
event the produced record differs from the claimed one. -/
theorem serializeProfile_ne_claimC5 :
    serializeProfile sampleEvent ≠ claimC5Record sampleEvent := by
  decide

/-- C5 amended: the record is a comma-prefixed JSON object with exactly the
fields `cat`, `dur`, `name`, `ph`, `pid`, `tid`, `ts` in that order, where
`dur` is the elapsed microsecond count rendered as a plain integer and `ts`
is the start timestamp rendered fixed-point with three decimals. -/
theorem serializeProfile_fields (result : ProfileResult) :
    serializeProfile result = amendedC5Record result := by
  have hd : ∀ a b : String, (a ++ b).data = a.data ++ b.data := fun _ _ => rfl
  apply String.ext
  simp only [serializeProfile, amendedC5Record, joinComma, jsonMember, hd,
    List.append_assoc]
  rfl

/-- Helper: truncating division by a positive constant is monotone (the
rounding-toward-zero `duration_cast` preserves order). -/
theorem tdiv_le_tdiv_of_le {a b c : ℤ} (hc : 0 < c) (h : a ≤ b) :
    Int.tdiv a c ≤ Int.tdiv b c := by
  rcases le_or_lt 0 a with ha | ha
  · rw [Int.tdiv_eq_ediv ha hc.le, Int.tdiv_eq_ediv (ha.trans h) hc.le]
    exact Int.ediv_le_ediv hc h
  · rcases le_or_lt 0 b with hb | hb
    · have h2 : 0 ≤ Int.tdiv (-a) c := Int.tdiv_nonneg (by omega) hc.le
      rw [Int.neg_tdiv] at h2
      have h3 : 0 ≤ Int.tdiv b c := Int.tdiv_nonneg hb hc.le
      omega
    · have h4 : Int.tdiv (-b) c ≤ Int.tdiv (-a) c := by
        rw [Int.tdiv_eq_ediv (by omega) hc.le, Int.tdiv_eq_ediv (by omega) hc.le]
        exact Int.ediv_le_ediv hc (by omega)
      rw [Int.neg_tdiv, Int.neg_tdiv] at h4
      omega

/-- C8: the event a guard submits on destruction has `elapsed >= 0`
whenever the monotonic-clock reading at destruction is not earlier than the
reading at construction, even when both truncate to the same microsecond. -/
theorem stopEvent_elapsed_nonneg (name : String) (startNs endNs : ℤ)
    (tid : ℕ) (h : startNs ≤ endNs) :
    0 ≤ (stopEvent name startNs endNs tid).Elapsed := by
  show 0 ≤ stopElapsed startNs endNs
  unfold stopElapsed timePointCastUs
  have := tdiv_le_tdiv_of_le (c := 1000) (by norm_num) h
  omega

/-- Witness for C8 on a near-instantaneous region (readings 1999ns and
2001ns, truncating to the same microsecond). -/
theorem stopEvent_elapsed_nonneg_witness :
    0 ≤ (stopEvent "work" 1999 2001 1).Elapsed :=
  stopEvent_elapsed_nonneg "work" 1999 2001 1 (by decide)

/-- C9: a guard instance submits exactly one event to the recorder, exactly
once, whichever way the guarded region exits — normal flow or a propagating
exception: the submission trace grows by exactly one entry in both cases. -/
theorem guard_submits_once {α : Type} (name : String) (startNs endNs : ℤ)
    (tid : ℕ) (outcome : RegionOutcome α) (st : ProfilerState) :
    (runGuarded name startNs endNs tid outcome st).submissions =
      st.submissions ++ [stopEvent name startNs endNs tid] := by
  cases outcome <;> cases h : st.currentSession <;>
    simp [runGuarded, scopeStop, writeProfile, h]

end ProfilerModel
